import Mathlib

/-!
Verification of the AutoGoogleForms core: the answer reconciler
(`pick_single_option` / `pick_multi_options` of `main_gemini.py` and
`main_groq.py`, which are textually identical on these functions), the
form-structure extractor (`parser.py`, `GFormParser`), and the answer-set
builder (`form_answer_builder.py`, `FormAnswerBuilder`).

Strings are modelled as Lean `String`/`List Char`.  Python `str.lower()` is
modelled by ASCII lowercasing (`Char.toLower`); Python `str.isdigit()` is
modelled as "non-empty and all ASCII digits" (the source feeds the result to
`int`, which only accepts such strings); Python whitespace is modelled by the
common whitespace characters including NBSP, which Python's `str.strip` and
the regex `\s` both treat as whitespace.
-/

/-- Whitespace as Python sees it in `str.strip()` and in the regex `\s`
(space, tab, newline, carriage return, vertical tab, form feed, NBSP). -/
def isPySpace (c : Char) : Bool :=
  c = ' ' || c = '\t' || c = '\n' || c = '\r' || c = '\x0b' || c = '\x0c' || c = '\xa0'

/-- Drop characters satisfying `p` from both ends (Python `str.strip(chars)`). -/
def dropAround (p : Char → Bool) (s : List Char) : List Char :=
  ((s.dropWhile p).reverse.dropWhile p).reverse

/-- Collapse every maximal run of whitespace into a single space
(the regex substitution `re.sub(r"\s+", " ", s)`). -/
def collapseWs (s : List Char) : List Char :=
  s.foldr (fun c acc =>
    if isPySpace c then
      match acc with
      | ' ' :: t => ' ' :: t
      | _ => ' ' :: acc
    else c :: acc) []

/-- Fold NBSP to a plain space (`s.replace("\xa0", " ")`). -/
def nbspFold (c : Char) : Char := if c = '\xa0' then ' ' else c

/-- The driver scripts' `_norm`: `_ws.sub(" ", s.strip().lower().replace("\xa0", " "))`
— strip, lower-case, fold NBSP, collapse whitespace, in that order. -/
def pynormL (s : List Char) : List Char :=
  collapseWs (((dropAround isPySpace s).map Char.toLower).map nbspFold)

/-- String-level version of `_norm`. -/
def pynorm (s : String) : String := (pynormL s.toList).asString

/-- Python `str.isdigit()` restricted to ASCII digits: non-empty and all digits. -/
def pyIsDigit (s : List Char) : Bool := !s.isEmpty && s.all Char.isDigit

/-- Decimal value of a digit string (Python `int`). -/
def digitsToNat (s : List Char) : Nat := s.foldl (fun a c => a * 10 + (c.toNat - 48)) 0

/-- Python substring test `n in h`. -/
def isSubL (n : List Char) : List Char → Bool
  | [] => n.isEmpty
  | c :: t => n.isPrefixOf (c :: t) || isSubL n t

/-- The separator class of the prefix-strip regex `[:\-–]` in `pick_single_option`:
colon, hyphen-minus, and EN DASH U+2013 (not the em dash). -/
def isSep (c : Char) : Bool := c = ':' || c = '-' || c = '–'

/-- Semantics of `re.search(r"[:\-–]\s*(.+)$", ans)` on a string with no newline:
the match anchors at the first separator that has at least one character after it,
and the remainder after that separator is returned (the regex group additionally
drops leading whitespace, which the subsequent `strip()` repeats, so returning the
raw remainder is equivalent after stripping). -/
def sepSplit : List Char → Option (List Char)
  | [] => none
  | c :: rest => if isSep c && !rest.isEmpty then some rest else sepSplit rest

/-- The quote characters stripped by `.strip("\x22\x27\xab\xbb")` in the source. -/
def isQuote (c : Char) : Bool := c = '"' || c = Char.ofNat 39 || c = '«' || c = '»'

/-- The stripped remainder `m.group(1).strip().strip("\x22\x27\xab\xbb")`. -/
def strippedRemainder (rest : List Char) : String :=
  (dropAround isQuote (dropAround isPySpace rest)).asString

/-- The candidate set of the containment fallback:
`[i for i, no in enumerate(norm_opts) if ans in no or no in ans]`, kept as the
options themselves rather than their indices. -/
def containmentHits (ans : String) (options : List String) : List String :=
  options.filter (fun o => isSubL ans.toList (pynorm o).toList || isSubL (pynorm o).toList ans.toList)

/-- The containment fallback of `pick_single_option`: exactly one candidate wins. -/
def containmentStep (ans : String) (options : List String) : Option String :=
  match containmentHits ans options with
  | [o] => some o
  | _ => none

/-- The part of `pick_single_option` after the ordinal branch: exact normalized
match, then prefix strip and re-match, then the containment fallback. -/
def pickSingleRest (ans : String) (options : List String) : Option String :=
  match options.find? (fun o => pynorm o == ans) with
  | some o => some o
  | none =>
    match sepSplit ans.toList with
    | some rest =>
      let ans2 := strippedRemainder rest
      match options.find? (fun o => pynorm o == ans2) with
      | some o => some o
      | none => containmentStep ans2 options
    | none => containmentStep ans options

/-- `pick_single_option(answer_text, options)` from `main_gemini.py` /
`main_groq.py`: empty options give none; an all-digit normalized text in
ordinal range returns that option; otherwise exact match, prefix-stripped
match, and the unique-containment fallback. -/
def pick_single_option (answer_text : String) (options : List String) : Option String :=
  if options.isEmpty then none
  else
    let ans := pynorm answer_text
    let k := digitsToNat ans.toList
    if pyIsDigit ans.toList = true ∧ 1 ≤ k ∧ k ≤ options.length then
      options[k - 1]?
    else pickSingleRest ans options

/-- Python `str.strip()`. -/
def pyStrip (s : String) : String := (dropAround isPySpace s.toList).asString

/-- The delimiter class of the multi-value split regex `[,;/\n]+`. -/
def isDelim (c : Char) : Bool := c = ',' || c = ';' || c = '/' || c = '\n'

/-- Semantics of `re.split(r"[,;/\n]+", s)` modulo interior empty pieces:
splitting at every single delimiter yields the same pieces except for extra
empty pieces where delimiters are adjacent, and the caller immediately strips
pieces and drops the blank ones, so the two splits are interchangeable there. -/
def splitDelims : List Char → List (List Char)
  | [] => [[]]
  | c :: rest =>
    let r := splitDelims rest
    if isDelim c then [] :: r
    else
      match r with
      | p :: ps => (c :: p) :: ps
      | [] => [[c]]

/-- One step of the accumulation loop shared by both branches of
`pick_multi_options`: `if match and match not in picked: picked.append(match)`
(a falsy — empty — match is skipped). -/
def multiStep (options : List String) (picked : List String) (piece : String) : List String :=
  match pick_single_option piece options with
  | some m => if m ≠ "" ∧ m ∉ picked then picked ++ [m] else picked
  | none => picked

/-- `pick_multi_options(answer_text, options)`.  The call `json.loads(ans)`
is modelled by the explicit collaborator `jsonListItems`: it returns the
stringified elements when the text parses as a JSON array (a Python list),
and `none` when `json.loads` raises or yields a non-list, in which case the
source falls through to the delimiter-split branch. -/
def pick_multi_options (jsonListItems : String → Option (List String))
    (answer_text : String) (options : List String) : Option (List String) :=
  if options.isEmpty then none
  else
    let ans := pyStrip answer_text
    match jsonListItems ans with
    | some items =>
      let picked := items.foldl (multiStep options) []
      if picked.isEmpty then none else some picked
    | none =>
      let parts := ((splitDelims ans.toList).map (fun p => (dropAround isPySpace p).asString)).filter
        (fun p => p ≠ "")
      if parts.isEmpty then none
      else
        let picked := parts.foldl (multiStep options) []
        if picked.isEmpty then none else some picked

/-- A conservative instance of the JSON-array collaborator used to instantiate
theorems at concrete inputs that are not JSON arrays: it recognizes no text as
a JSON array. -/
def jsonNone : String → Option (List String) := fun _ => none

/-- A node of the parsed `FB_PUBLIC_LOAD_DATA_` document: arbitrarily nested
sequences with string/number/boolean leaves.  JSON `null` and Python `None`
are the same value (`null`), so `_dig` signalling "absent" by returning
`None` is modelled by returning `null`. -/
inductive DocNode where
  | str : String → DocNode
  | num : Int → DocNode
  | bool : Bool → DocNode
  | null : DocNode
  | list : List DocNode → DocNode

/-- `GFormParser._dig(x, path)`: walk the indices in order; the moment the
current node is not a list or the index is negative or past the end, return
`None` (here: `null`) without raising. -/
def dig : DocNode → List Int → DocNode
  | cur, [] => cur
  | DocNode.list xs, p :: ps =>
    if h : 0 ≤ p ∧ p.toNat < xs.length then dig (xs.get ⟨p.toNat, h.2⟩) ps
    else DocNode.null
  | _, _ :: _ => DocNode.null

mutual
/-- `GFormParser._walk_lists(x)`: depth-first pre-order enumeration of every
nested list node, including `x` itself when it is a list. -/
def walkLists : DocNode → List DocNode
  | .list xs => .list xs :: walkListsMany xs
  | _ => []

/-- Walk each element of a list of nodes in order, concatenating the results. -/
def walkListsMany : List DocNode → List DocNode
  | [] => []
  | x :: xs => walkLists x ++ walkListsMany xs
end

/-- `GFormParser._normalize(s)`: fold NBSP, collapse whitespace, strip, then
lower-case (this order differs from the drivers' `_norm`). -/
def pyNormalize (s : String) : String :=
  ((dropAround isPySpace (collapseWs (s.toList.map nbspFold))).map Char.toLower).asString

/-- Lookup in an insertion-ordered association list modelling a Python dict. -/
def dictGet? {α : Type} (d : List (String × α)) (k : String) : Option α :=
  (d.find? (fun p => p.1 == k)).map (fun p => p.2)

/-- Python truthiness of an optional string (`if eid:`): present and non-empty. -/
def truthyStr : Option String → Bool
  | some s => s ≠ ""
  | none => false

/-- `TYPE_MAP` of `GFormParser`. -/
def typeMap : Int → Option String := fun t =>
  if t = 0 then some "short_answer"
  else if t = 1 then some "paragraph"
  else if t = 2 then some "multiple_choice"
  else if t = 3 then some "dropdown"
  else if t = 4 then some "checkboxes"
  else if t = 5 then some "linear_scale"
  else if t = 7 then some "date"
  else if t = 8 then some "time"
  else none

/-- Per-entry choice extraction: `ch[0]` if it is a string, else `ch[1]` if
present and a string, else nothing; non-list entries contribute nothing. -/
def chFirst : DocNode → Option String
  | .list (x :: rest) =>
    match x with
    | .str s => some s
    | _ =>
      match rest with
      | y :: _ =>
        match y with
        | .str s2 => some s2
        | _ => none
      | [] => none
  | _ => none

/-- Whether a node is a list (`isinstance(x, list)`). -/
def isListNode : DocNode → Bool
  | .list _ => true
  | _ => false

/-- Python `x or None` on an extracted string list: an empty list becomes `None`. -/
def orNoneL : Option (List String) → Option (List String)
  | some [] => none
  | x => x

/-- Truthiness of an optional list (`if cols:`): present and non-empty. -/
def truthyList : Option (List String) → Bool
  | some (_ :: _) => true
  | _ => false

/-- The `sample` test of the choices fallback: the first entry is a non-empty
list containing a non-blank string. -/
def sampleOk : List DocNode → Bool
  | y :: _ =>
    match y with
    | .list sample =>
      !sample.isEmpty && sample.any (fun v =>
        match v with
        | .str s => !(dropAround isPySpace s.toList).isEmpty
        | _ => false)
    | _ => false
  | [] => false

/-- The fallback of `_extract_choices`: the largest list-of-lists whose first
entry holds a non-blank string, turned into choices (columns are never
produced on this path). -/
def fallbackChoices (item : DocNode) : Option (List String) × Option (List String) :=
  let best := (walkLists item).foldl (fun best n =>
    match n with
    | .list xs =>
      if !xs.isEmpty && xs.all isListNode && sampleOk xs then
        match best with
        | none => some xs
        | some b => if xs.length > b.length then some xs else best
      else best
    | _ => best) none
  match best with
  | some xs =>
    let choices := xs.filterMap chFirst
    if !choices.isEmpty then (some choices, none) else (none, none)
  | none => (none, none)

/-- `GFormParser._extract_choices(item)`: authoritative path `[4, 0, 1]` (with
columns at `[4, 0, 2]`), else the largest-uniform-list fallback. -/
def extractChoices (item : DocNode) : Option (List String) × Option (List String) :=
  match dig item [4, 0, 1] with
  | .list node =>
    if !node.isEmpty && node.all isListNode then
      let choices := node.filterMap chFirst
      let cols :=
        match dig item [4, 0, 2] with
        | .list cnode =>
          if !cnode.isEmpty && cnode.all isListNode then some (cnode.filterMap chFirst)
          else none
        | _ => none
      (orNoneL (some choices), cols)
    else fallbackChoices item
  | _ => fallbackChoices item

/-- The reversed scan of `_is_required` over `item[4][0]`: last boolean wins,
descending one level into nested lists. -/
def scanRev (l : List DocNode) : Option Bool :=
  l.reverse.findSome? (fun v =>
    match v with
    | .bool b => some b
    | .list vv =>
      vv.reverse.findSome? (fun x =>
        match x with
        | .bool b => some b
        | _ => none)
    | _ => none)

/-- `GFormParser._is_required(item)`. -/
def isRequired (item : DocNode) : Option Bool :=
  let first :=
    match dig item [4, 0] with
    | .list node => scanRev node
    | _ => none
  match first with
  | some b => some b
  | none =>
    (walkLists item).findSome? (fun n =>
      match n with
      | .list xs =>
        xs.findSome? (fun v =>
          match v with
          | .bool b => some b
          | _ => none)
      | _ => none)

/-- `GFormParser._question_type(item)`: the authoritative type code at `[3]`
mapped through `TYPE_MAP`, else classify by shape.  (Python would also accept
a boolean at `[3]` as the int it subclasses; booleans fall through to the
shape fallback here, a corner no form document exercises.) -/
def questionType (item : DocNode) : String :=
  match dig item [3] with
  | .num t =>
    match typeMap t with
    | some s => s
    | none =>
      let (choices, cols) := extractChoices item
      if truthyList choices && truthyList cols then "grid"
      else if truthyList choices then "choice"
      else "text"
  | _ =>
    let (choices, cols) := extractChoices item
    if truthyList choices && truthyList cols then "grid"
    else if truthyList choices then "choice"
    else "text"

/-- The fixed candidate paths of `_extract_entry_id_from_item_fb`. -/
def pathsEid : List (List Int) := [[4, 0, 0], [4, 0, 3, 0], [4, 0, 0, 0], [0]]

/-- The path scan of `_extract_entry_id_from_item_fb`: an int `>= 10000` at a
candidate path, or the first such int directly inside a list at that path. -/
def eidFromPaths (item : DocNode) : Option String :=
  pathsEid.findSome? (fun p =>
    match dig item p with
    | .num v => if v ≥ 10000 then some (toString v) else none
    |.list xs =>
      xs.findSome? (fun x =>
        match x with
        | .num n => if n ≥ 10000 then some (toString n) else none
        | _ => none)
    | _ => none)

/-- The exhaustive fallback of `_extract_entry_id_from_item_fb`: the int
`>= 10000` with the longest decimal representation found anywhere. -/
def eidBest (item : DocNode) : Option String :=
  (walkLists item).foldl (fun best n =>
    match n with
    | .list xs =>
      xs.foldl (fun best v =>
        match v with
        | .num val =>
          if val ≥ 10000 then
            let s := toString val
            match best with
            | none => some s
            | some b => if s.length > b.length then some s else best
          else best
        | _ => best) best
    | _ => best) none

/-- `GFormParser._extract_entry_id_from_item_fb(item)`. -/
def extractEntryIdFromItemFb (item : DocNode) : Option String :=
  match eidFromPaths item with
  | some e => some e
  | none => eidBest item

/-- The score of a candidate items root in `_guess_items_root`: the number of
child entries that are lists containing a non-blank string. -/
def rootScore (xs : List DocNode) : Nat :=
  xs.countP (fun v =>
    match v with
    | .list ys =>
      ys.any (fun x =>
        match x with
        | .str s => !(dropAround isPySpace s.toList).isEmpty
        | _ => false)
    | _ => false)

/-- Qualification threshold of `_guess_items_root`:
`str_count >= max(2, len(node) // 3)`. -/
def qualifiesRoot (xs : List DocNode) : Prop := max 2 (xs.length / 3) ≤ rootScore xs

instance (xs : List DocNode) : Decidable (qualifiesRoot xs) := by
  unfold qualifiesRoot; infer_instance

/-- One step of the best-candidate scan of `_guess_items_root`: keep a
non-empty qualifying node strictly longer than the current best. -/
def rootStep (best : List DocNode) (n : DocNode) : List DocNode :=
  match n with
  | .list xs => if !xs.isEmpty ∧ qualifiesRoot xs ∧ best.length < xs.length then xs else best
  | _ => best

/-- The scan fallback of `_guess_items_root` over every nested list node. -/
def fallbackRoot (data : DocNode) : Except String (List DocNode) :=
  let best := (walkLists data).foldl rootStep []
  if best.isEmpty then .error "Не удалось найти список вопросов в данных формы."
  else .ok best

/-- `GFormParser._guess_items_root(data)`: the authoritative path `[1, 1]`
when it is a non-empty list, else the heuristic scan, else the fatal error. -/
def guessItemsRoot (data : DocNode) : Except String (List DocNode) :=
  match dig data [1, 1] with
  | .list c => if !c.isEmpty then .ok c else fallbackRoot data
  | _ => fallbackRoot data

/-- A qualifying candidate is non-empty: its score is at least 2 and at most
its length. -/
theorem qualifiesRoot_ne_nil {xs : List DocNode} (h : qualifiesRoot xs) : xs ≠ [] := by
  intro he
  subst he
  unfold qualifiesRoot rootScore at h
  simp at h

/-- One fold step never shrinks the best candidate. -/
theorem rootStep_le (best : List DocNode) (n : DocNode) :
    best.length ≤ (rootStep best n).length := by
  unfold rootStep
  cases n with
  | list xs =>
    show best.length ≤
      (if (!xs.isEmpty) = true ∧ qualifiesRoot xs ∧ best.length < xs.length then xs
       else best).length
    by_cases h : (!xs.isEmpty) = true ∧ qualifiesRoot xs ∧ best.length < xs.length
    · rw [if_pos h]; exact Nat.le_of_lt h.2.2
    · rw [if_neg h]
  | str s => exact Nat.le_refl _
  | num m => exact Nat.le_refl _
  | bool b => exact Nat.le_refl _
  | null => exact Nat.le_refl _

/-- One fold step over a qualifying list node keeps the best at least as
long as that node. -/
theorem rootStep_ge_of_qualifies (best : List DocNode) (ys : List DocNode)
    (h : qualifiesRoot ys) : ys.length ≤ (rootStep best (DocNode.list ys)).length := by
  unfold rootStep
  show ys.length ≤
    (if (!ys.isEmpty) = true ∧ qualifiesRoot ys ∧ best.length < ys.length then ys
     else best).length
  by_cases hc : (!ys.isEmpty) = true ∧ qualifiesRoot ys ∧ best.length < ys.length
  · rw [if_pos hc]
  · rw [if_neg hc]
    rcases Decidable.not_and_iff_or_not.mp hc with h1 | h2
    · exact absurd (by
        cases hys : ys with
        | nil => exact absurd hys (qualifiesRoot_ne_nil h)
        | cons a t => rfl) h1
    · rcases Decidable.not_and_iff_or_not.mp h2 with h3 | h4
      · exact absurd h h3
      · exact Nat.le_of_not_lt h4

/-- One fold step yields the previous best or a qualifying member node. -/
theorem rootStep_cases (best : List DocNode) (n : DocNode) :
    rootStep best n = best ∨
      (DocNode.list (rootStep best n) = n ∧ qualifiesRoot (rootStep best n)) := by
  unfold rootStep
  cases n with
  | list xs =>
    show (if (!xs.isEmpty) = true ∧ qualifiesRoot xs ∧ best.length < xs.length then xs
          else best) = best ∨
      (DocNode.list (if (!xs.isEmpty) = true ∧ qualifiesRoot xs ∧ best.length < xs.length
          then xs else best) = DocNode.list xs ∧
        qualifiesRoot (if (!xs.isEmpty) = true ∧ qualifiesRoot xs ∧ best.length < xs.length
          then xs else best))
    by_cases h : (!xs.isEmpty) = true ∧ qualifiesRoot xs ∧ best.length < xs.length
    · rw [if_pos h]; exact Or.inr ⟨rfl, h.2.1⟩
    · rw [if_neg h]; exact Or.inl rfl
  | str s => exact Or.inl rfl
  | num m => exact Or.inl rfl
  | bool b => exact Or.inl rfl
  | null => exact Or.inl rfl

/-- Invariant of the best-candidate fold of `_guess_items_root`: the result
dominates every qualifying list node of the scanned prefix, never shrinks,
and is either the initial value or a qualifying node of the prefix. -/
theorem rootStep_fold_spec (l : List DocNode) :
    ∀ b : List DocNode,
      (∀ ys, DocNode.list ys ∈ l → qualifiesRoot ys →
        ys.length ≤ (l.foldl rootStep b).length) ∧
      b.length ≤ (l.foldl rootStep b).length ∧
      (l.foldl rootStep b = b ∨
        (DocNode.list (l.foldl rootStep b) ∈ l ∧ qualifiesRoot (l.foldl rootStep b))) :=
  by
  induction l with
  | nil =>
    intro b
    exact ⟨fun ys hmem _ => absurd hmem (List.not_mem_nil _), Nat.le_refl _, Or.inl rfl⟩
  | cons n t ih =>
    intro b
    obtain ⟨ih1, ih2, ih3⟩ := ih (rootStep b n)
    simp only [List.foldl_cons]
    refine ⟨?_, ?_, ?_⟩
    · intro ys hmem hq
      rcases List.mem_cons.mp hmem with h1 | h2
      · subst h1
        exact Nat.le_trans (rootStep_ge_of_qualifies b ys hq) ih2
      · exact ih1 ys h2 hq
    · exact Nat.le_trans (rootStep_le b n) ih2
    · rcases ih3 with h1 | h2
      · rw [h1]
        rcases rootStep_cases b n with h3 | h4
        · exact Or.inl h3
        · exact Or.inr ⟨List.mem_cons.mpr (Or.inl h4.1), h4.2⟩
      · exact Or.inr ⟨List.mem_cons.mpr (Or.inr h2.1), h2.2⟩

/-- When the authoritative path fails, `_guess_items_root` runs the scan. -/
theorem guessItemsRoot_fallback (data : DocNode)
    (hfb : ∀ c, dig data [1, 1] = DocNode.list c → c = []) :
    guessItemsRoot data = fallbackRoot data := by
  unfold guessItemsRoot
  cases hd : dig data [1, 1] with
  | list c =>
    have := hfb c hd
    subst this
    rfl
  | str s => rfl
  | num m => rfl
  | bool b => rfl
  | null => rfl

/-- Claim C9: when the authoritative fixed path `[1, 1]` does not yield the
items root, the extractor scans every nested list node; a successful result
is a qualifying node (its count of string-bearing child entries is at least
`max 2 (length / 3)`) of maximal length among the qualifying nodes of the
walk, and when no node qualifies the extractor fails with the fatal error
instead of returning a list. -/
theorem items_root_fallback_spec (data : DocNode)
    (hfb : ∀ c, dig data [1, 1] = DocNode.list c → c = []) :
    (∀ xs, guessItemsRoot data = .ok xs →
      DocNode.list xs ∈ walkLists data ∧ qualifiesRoot xs ∧
        ∀ ys, DocNode.list ys ∈ walkLists data → qualifiesRoot ys →
          ys.length ≤ xs.length) ∧
    (∀ e, guessItemsRoot data = .error e →
      ∀ ys, DocNode.list ys ∈ walkLists data → ¬qualifiesRoot ys) := by
  rw [guessItemsRoot_fallback data hfb]
  unfold fallbackRoot
  obtain ⟨inv1, inv2, inv3⟩ := rootStep_fold_spec (walkLists data) []
  by_cases hempty : ((walkLists data).foldl rootStep []).isEmpty
  · rw [if_pos hempty]
    have hnil : (walkLists data).foldl rootStep [] = [] := by
      cases hh : (walkLists data).foldl rootStep []
      · rfl
      · rw [hh] at hempty; exact absurd hempty (by simp)
    refine ⟨fun xs hxs => absurd hxs (by simp), fun e _ ys hmem hq => ?_⟩
    have := inv1 ys hmem hq
    rw [hnil] at this
    simp only [List.length_nil, Nat.le_zero, List.length_eq_zero] at this
    exact absurd this (qualifiesRoot_ne_nil hq)
  · rw [if_neg hempty]
    refine ⟨fun xs hxs => ?_, fun e he => absurd he (by simp)⟩
    simp only [Except.ok.injEq] at hxs
    subst hxs
    rcases inv3 with h1 | h2
    · rw [h1] at hempty; exact absurd hempty (by simp)
    · exact ⟨h2.1, h2.2, inv1⟩

/-- A concrete document whose authoritative path fails (index 1 is out of
bounds at the second step) and whose scan finds the two-entry inner node. -/
def scanData : DocNode :=
  .list [.list [.list [.str "a"], .list [.str "b"]]]

/-- Witness for C9: on `scanData` the authoritative path yields no list, and
the scan selects the qualifying inner node. -/
theorem items_root_fallback_spec_witness :
    (∀ c, dig scanData [1, 1] = DocNode.list c → c = []) ∧
    (DocNode.list [DocNode.list [DocNode.str "a"], DocNode.list [DocNode.str "b"]] ∈
        walkLists scanData ∧
      qualifiesRoot [DocNode.list [DocNode.str "a"], DocNode.list [DocNode.str "b"]] ∧
      ∀ ys, DocNode.list ys ∈ walkLists scanData → qualifiesRoot ys →
        ys.length ≤ ([DocNode.list [DocNode.str "a"], DocNode.list [DocNode.str "b"]] :
          List DocNode).length) :=
  ⟨fun c h => DocNode.noConfusion h,
   (items_root_fallback_spec scanData (fun c h => DocNode.noConfusion h)).1
     [DocNode.list [DocNode.str "a"], DocNode.list [DocNode.str "b"]] rfl⟩

/-- A stripped non-empty string leaf (`isinstance(v, str) and v.strip()`),
yielding the stripped text. -/
def strCase : DocNode → Option String
  | .str s =>
    let t := dropAround isPySpace s.toList
    if !t.isEmpty then some t.asString else none
  | _ => none

/-- The exhaustive text search of the question loop: the first non-blank
string member of the first list node (in walk order) that has one. -/
def textSearch (item : DocNode) : Option String :=
  (walkLists item).findSome? (fun n =>
    match n with
    | .list xs =>
      xs.findSome? (fun v =>
        match v with
        | .str s =>
          let t := dropAround isPySpace s.toList
          if !t.isEmpty then some t.asString else none
        | _ => none)
    | _ => none)

/-- The question-text extraction of the loop in `GFormParser.parse`:
`item[1]`, else `item[0][1]`, else the exhaustive search. -/
def questionText (item : DocNode) : Option String :=
  match strCase (dig item [1]) with
  | some t => some t
  | none =>
    match strCase (dig item [0, 1]) with
    | some t => some t
    | none => textSearch item

/-- Python `html.unescape`, restricted to the five predefined XML entities;
the claims never exercise entity text, and the full HTML5 entity table is out
of scope of the embedding. -/
def unescapeL : List Char → List Char
  | [] => []
  | '&' :: 'a' :: 'm' :: 'p' :: ';' :: rest => '&' :: unescapeL rest
  | '&' :: 'l' :: 't' :: ';' :: rest => '<' :: unescapeL rest
  | '&' :: 'g' :: 't' :: ';' :: rest => '>' :: unescapeL rest
  | '&' :: 'q' :: 'u' :: 'o' :: 't' :: ';' :: rest => '"' :: unescapeL rest
  | '&' :: '#' :: '3' :: '9' :: ';' :: rest => Char.ofNat 39 :: unescapeL rest
  | c :: rest => c :: unescapeL rest

/-- String-level `html.unescape`. -/
def htmlUnescape (s : String) : String := (unescapeL s.toList).asString

/-- `match_entry_by_label` of `GFormParser.parse`: exact normalized key, else
the first map entry related by prefix or containment in either direction. -/
def matchEntryByLabel (label_map : List (String × String)) (qtext : String) : Option String :=
  let key := pyNormalize qtext
  match dictGet? label_map key with
  | some e => some e
  | none =>
    label_map.findSome? (fun kv =>
      if key.startsWith kv.1 || kv.1.startsWith key
          || isSubL key.toList kv.1.toList || isSubL kv.1.toList key.toList then some kv.2
      else none)

/-- The extractor's output unit (`q` dict of `GFormParser.parse`); `none`
models an absent dict key. -/
structure Question where
  text : String
  qtype : String
  required : Option Bool
  choices_or_rows : Option (List String)
  columns : Option (List String)
  entry_id : Option String
  other_allowed : Bool
  other_value : Option String
  other_response_key : Option String
deriving DecidableEq

/-- Blank after trimming (`isinstance(c, str) and c.strip() == ""`). -/
def isBlankStr (c : String) : Bool := (dropAround isPySpace c.toList).isEmpty

/-- Construction of one question from its item, its unescaped text, and the
already-assigned entry id: field extraction followed by the free-answer
("Другое") post-processing of `GFormParser.parse`. -/
def mkQuestion (item : DocNode) (text : String) (eid : Option String) : Question :=
  let qtype := questionType item
  let required := isRequired item
  let (choices, cols) := extractChoices item
  let base : Question :=
    { text := text, qtype := qtype, required := required,
      choices_or_rows := if truthyList choices then choices else none,
      columns := if truthyList cols then cols else none,
      entry_id := eid,
      other_allowed := false, other_value := none, other_response_key := none }
  if qtype = "multiple_choice" ∨ qtype = "dropdown" ∨ qtype = "checkboxes" ∨ qtype = "choice" then
    let chs := base.choices_or_rows.getD []
    if chs.any isBlankStr then
      { base with
        choices_or_rows := some (chs.filter (fun c => !isBlankStr c)),
        other_allowed := true,
        other_value := some "__other_option__",
        other_response_key :=
          if truthyStr eid then some ("entry." ++ eid.getD "" ++ ".other_option_response")
          else none }
    else base
  else base

/-- The question loop of `GFormParser.parse`: skip non-list items and items
without text; assign the entry id from the ordered markup list first, else by
label match, else from the item itself; `idx` is `eid_idx`. -/
def extractLoop (entry_ids : List String) (label_map : List (String × String)) :
    List DocNode → Nat → List Question
  | [], _ => []
  | it :: rest, idx =>
    match it with
    | DocNode.list _ =>
      match questionText it with
      | some rawText =>
        let text := htmlUnescape rawText
        let (eid0, idx2) :=
          if h : idx < entry_ids.length then (some (entry_ids.get ⟨idx, h⟩), idx + 1)
          else (none, idx)
        let eid :=
          if truthyStr eid0 then eid0
          else
            let eid1 := matchEntryByLabel label_map text
            if truthyStr eid1 then eid1 else extractEntryIdFromItemFb it
        mkQuestion it text eid :: extractLoop entry_ids label_map rest idx2
      | none => extractLoop entry_ids label_map rest idx
    | _ => extractLoop entry_ids label_map rest idx

/-- The question-extraction core of `GFormParser.parse`: the items root
located by `_guess_items_root` fed through the question loop.  (Markup-side
inputs — the ordered `entry.<id>` list and the label map — are parameters;
title, description and meta recovery are I/O glue outside this core.) -/
def extractQuestions (data : DocNode) (entry_ids : List String)
    (label_map : List (String × String)) : Except String (List Question) :=
  match guessItemsRoot data with
  | .error e => .error e
  | .ok items => .ok (extractLoop entry_ids label_map items 0)

/-- A concrete form document whose single item is a grid question (an
unrecognized type code with both options and columns) with a blank raw
option: the free-answer post-processing only runs for choice-like types, so
the blank survives extraction. -/
def gridBlankData : DocNode :=
  .list [.null, .list [.null, .list [
    .list [.null, .str "Q", .null, .num 999,
      .list [.list [.null,
        .list [.list [.str "R1"], .list [.str ""]],
        .list [.list [.str "C1"]]]]]]]]

/-- Counterexample to claim C3: extraction of `gridBlankData` produces one
question of type "grid" whose `choices_or_rows` still contains the empty
string — "for every question produced by extraction" fails, because the
blank-stripping post-processing only runs for the choice-like types
(`multiple_choice`, `dropdown`, `checkboxes`, `choice`). -/
theorem extract_blank_choice_cex : extractQuestions gridBlankData [] [] =
    .ok [{ text := "Q", qtype := "grid", required := none,
           choices_or_rows := some ["R1", ""], columns := some ["C1"],
           entry_id := none, other_allowed := false, other_value := none,
           other_response_key := none }] := rfl

/-- The question built from an item keeps the item's type tag. -/
theorem mkQuestion_qtype (it : DocNode) (text : String) (eid : Option String) :
    (mkQuestion it text eid).qtype = questionType it := by
  unfold mkQuestion
  rcases extractChoices it with ⟨choices, cols⟩
  simp only []
  by_cases hty : questionType it = "multiple_choice" ∨ questionType it = "dropdown" ∨
      questionType it = "checkboxes" ∨ questionType it = "choice"
  · rw [if_pos hty]
    by_cases hb : ((if truthyList choices then choices else none).getD []).any isBlankStr
    · rw [if_pos hb]
    · rw [if_neg hb]
  · rw [if_neg hty]

/-- The question built from an item carries the assigned entry id. -/
theorem mkQuestion_entry_id (it : DocNode) (text : String) (eid : Option String) :
    (mkQuestion it text eid).entry_id = eid := by
  unfold mkQuestion
  rcases extractChoices it with ⟨choices, cols⟩
  simp only []
  by_cases hty : questionType it = "multiple_choice" ∨ questionType it = "dropdown" ∨
      questionType it = "checkboxes" ∨ questionType it = "choice"
  · rw [if_pos hty]
    by_cases hb : ((if truthyList choices then choices else none).getD []).any isBlankStr
    · rw [if_pos hb]
    · rw [if_neg hb]
  · rw [if_neg hty]

/-- For a choice-like item, the built question has no blank option left, and
the free-answer fields are set exactly when a blank raw option was present —
with the wire key attached only for a truthy entry id. -/
theorem mkQuestion_spec (it : DocNode) (text : String) (eid : Option String)
    (hty : questionType it = "multiple_choice" ∨ questionType it = "dropdown" ∨
      questionType it = "checkboxes" ∨ questionType it = "choice") :
    (((mkQuestion it text eid).choices_or_rows.getD []).all (fun c => !isBlankStr c) = true) ∧
    ((mkQuestion it text eid).other_allowed = true →
      (mkQuestion it text eid).other_value = some "__other_option__" ∧
      (mkQuestion it text eid).other_response_key =
        (if truthyStr eid then some ("entry." ++ eid.getD "" ++ ".other_option_response")
         else none)) ∧
    ((mkQuestion it text eid).other_allowed = false →
      (mkQuestion it text eid).other_value = none ∧
      (mkQuestion it text eid).other_response_key = none) := by
  unfold mkQuestion
  rcases extractChoices it with ⟨choices, cols⟩
  simp only []
  rw [if_pos hty]
  by_cases hb : ((if truthyList choices then choices else none).getD []).any isBlankStr
  · rw [if_pos hb]
    refine ⟨?_, fun _ => ⟨rfl, rfl⟩, fun h => absurd h (by simp)⟩
    simp only [Option.getD_some]
    rw [List.all_eq_true]
    intro c hc
    exact (List.mem_filter.mp hc).2
  · rw [if_neg hb]
    refine ⟨?_, fun h => absurd h (by simp), fun _ => ⟨rfl, rfl⟩⟩
    simp only []
    rw [List.all_eq_true]
    intro c hc
    rw [List.any_eq_true] at hb
    push_neg at hb
    have hfc := hb c hc
    simp only [Bool.not_eq_true] at hfc
    simp [hfc]

/-- A concrete form document whose single item is a multiple-choice question
(type code 2) with options "A" and a blank; the markup-side entry-id list
supplies "123". -/
def mcBlankData : DocNode :=
  .list [.null, .list [.null, .list [
    .list [.null, .str "Q2", .null, .num 2,
      .list [.list [.null, .list [.list [.str "A"], .list [.str ""]]]]]]]]

/-- The question extracted from `mcBlankData`: the blank option is stripped
and converted into the free-answer fields. -/
def mcBlankQuestion : Question :=
  { text := "Q2", qtype := "multiple_choice", required := none,
    choices_or_rows := some ["A"], columns := none, entry_id := some "123",
    other_allowed := true, other_value := some "__other_option__",
    other_response_key := some "entry.123.other_option_response" }


/-- Every extracted question is built by `mkQuestion` from some item, text
and entry id. -/
theorem extractLoop_mem (entry_ids : List String) (label_map : List (String × String)) :
    ∀ (items : List DocNode) (idx : Nat) (q : Question),
      q ∈ extractLoop entry_ids label_map items idx →
      ∃ it text eid, q = mkQuestion it text eid := by
  intro items
  induction items with
  | nil => intro idx q h; exact absurd h (List.not_mem_nil q)
  | cons it rest ih =>
    intro idx q h
    cases it with
    | list xs =>
      cases hqt : questionText (DocNode.list xs) with
      | some rawText =>
        simp only [extractLoop, hqt] at h
        rcases List.mem_cons.mp h with h1 | h2
        · exact ⟨DocNode.list xs, _, _, h1⟩
        · exact ih _ _ h2
      | none =>
        simp only [extractLoop, hqt] at h
        exact ih _ _ h
    | str s => simp only [extractLoop] at h; exact ih _ _ h
    | num n => simp only [extractLoop] at h; exact ih _ _ h
    | bool b => simp only [extractLoop] at h; exact ih _ _ h
    | null => simp only [extractLoop] at h; exact ih _ _ h

/-- Claim C3 as amended: for every CHOICE-LIKE question produced by
extraction (type `multiple_choice`, `dropdown`, `checkboxes` or `choice`),
`choices_or_rows` contains no empty or blank string; whenever the
free-answer flag was set by blank stripping, `other_value` is the sentinel
and `other_response_key` is attached exactly when the entry id is known, and
a question without the flag carries neither field.  (Questions of other
types — e.g. `grid` — are exempt, as the counterexample shows.) -/
theorem extract_choice_blank_stripped (data : DocNode) (entry_ids : List String)
    (label_map : List (String × String)) (qs : List Question) (q : Question)
    (hok : extractQuestions data entry_ids label_map = .ok qs)
    (hmem : q ∈ qs)
    (hty : q.qtype = "multiple_choice" ∨ q.qtype = "dropdown" ∨ q.qtype = "checkboxes" ∨
      q.qtype = "choice") :
    ((q.choices_or_rows.getD []).all (fun c => !isBlankStr c) = true) ∧
    (q.other_allowed = true → q.other_value = some "__other_option__" ∧
      q.other_response_key = (if truthyStr q.entry_id then
        some ("entry." ++ q.entry_id.getD "" ++ ".other_option_response") else none)) ∧
    (q.other_allowed = false → q.other_value = none ∧ q.other_response_key = none) := by
  have hex : ∃ it text eid, q = mkQuestion it text eid := by
    unfold extractQuestions at hok
    cases hroot : guessItemsRoot data with
    | error e => rw [hroot] at hok; exact absurd hok (by simp)
    | ok items =>
      rw [hroot] at hok
      simp only [Except.ok.injEq] at hok
      subst hok
      exact extractLoop_mem entry_ids label_map items 0 q hmem
  obtain ⟨it, text, eid, rfl⟩ := hex
  rw [mkQuestion_qtype it text eid] at hty
  have hspec := mkQuestion_spec it text eid hty
  rw [mkQuestion_entry_id it text eid]
  exact hspec

/-- Witness for the amended C3: extraction of `mcBlankData` produces exactly
the stripped question, and the theorem applies to it. -/
theorem extract_choice_blank_stripped_witness :
    extractQuestions mcBlankData ["123"] [] = .ok [mcBlankQuestion] ∧
    (((mcBlankQuestion.choices_or_rows.getD []).all (fun c => !isBlankStr c) = true) ∧
      (mcBlankQuestion.other_allowed = true →
        mcBlankQuestion.other_value = some "__other_option__" ∧
        mcBlankQuestion.other_response_key = (if truthyStr mcBlankQuestion.entry_id then
          some ("entry." ++ mcBlankQuestion.entry_id.getD "" ++ ".other_option_response")
          else none)) ∧
      (mcBlankQuestion.other_allowed = false →
        mcBlankQuestion.other_value = none ∧
        mcBlankQuestion.other_response_key = none)) :=
  ⟨rfl, extract_choice_blank_stripped mcBlankData ["123"] [] [mcBlankQuestion]
    mcBlankQuestion rfl (List.mem_singleton_self mcBlankQuestion) (Or.inl rfl)⟩

/-- A value passed to `FormAnswerBuilder.set_answer`: a plain string, a list
of strings (checkbox selections), or a dict carrying the key `__other__`
(free text) and optionally `__selected__` (co-selected checkbox values).
Non-string scalars, which the source merely passes through `str`, are outside
the modelled fragment. -/
inductive InValue where
  | str : String → InValue
  | list : List String → InValue
  | other : String → Option (List String) → InValue
deriving DecidableEq

/-- A value stored in `FormAnswerBuilder.answers`. -/
inductive AnsValue where
  | str : String → AnsValue
  | list : List String → AnsValue
  | other : String → Option (List String) → AnsValue
deriving DecidableEq

/-- Python `str.lower()` on the modelled (ASCII) fragment. -/
def lowerStr (s : String) : String := (s.toList.map Char.toLower).asString

/-- Insertion into an insertion-ordered association list with Python dict
semantics: an existing key keeps its position and gets the new value, a new
key is appended. -/
def dictInsert {α : Type} (d : List (String × α)) (k : String) (v : α) : List (String × α) :=
  if d.any (fun p => p.1 == k) then d.map (fun p => if p.1 == k then (k, v) else p)
  else d ++ [(k, v)]

/-- The `parsed` input of `FormAnswerBuilder`: the question list plus the
meta fields the builder reads. -/
structure ParsedForm where
  questions : List Question
  action : String
  fbzx : String
deriving DecidableEq

/-- The state of a `FormAnswerBuilder`. -/
structure Builder where
  strict : Bool
  action : String
  fbzx : String
  q_by_id : List (String × Question)
  answers : List (String × AnsValue)
deriving DecidableEq

/-- `FormAnswerBuilder.__init__(parsed, strict)`: index the questions that
have a truthy `entry_id`; answers start empty. -/
def mkBuilder (parsed : ParsedForm) (strict : Bool) : Builder :=
  { strict := strict, action := parsed.action, fbzx := parsed.fbzx,
    q_by_id := parsed.questions.foldl (fun d q =>
      match q.entry_id with
      | some e => if e ≠ "" then dictInsert d e q else d
      | none => d) [],
    answers := [] }

/-- Error text of the unknown-id branch (quotes of the source message elided). -/
def unknownFieldMsg (entry_id : String) : String :=
  "Неизвестный entry_id: " ++ entry_id

/-- Error text of the single-choice invalid-option branch. -/
def invalidOptionMsg (v entry_id : String) : String :=
  "Ответ " ++ v ++ " не входит в варианты и Другое не разрешено для entry." ++ entry_id

/-- Error text of the checkboxes invalid-option branch. -/
def invalidOptionsMsg (others : List String) (entry_id : String) : String :=
  "Часть ответов " ++ String.intercalate ", " others
    ++ " не входят в варианты и Другое не разрешено для entry." ++ entry_id

/-- The checkboxes branch of `set_answer`: partition into declared and
unrecognized values; unrecognized ones go through the "other" record when
allowed, raise in strict mode otherwise, or are silently dropped. -/
def checkboxStore (b : Builder) (entry_id : String) (vals : List String)
    (choices : List String) (other_allowed : Bool) : Except String Builder :=
  let selected := vals.filter (fun v => choices.contains v)
  let others := vals.filter (fun v => !choices.contains v)
  if !others.isEmpty then
    if other_allowed then
      .ok { b with answers := dictInsert b.answers entry_id (.other
              (String.intercalate "; " others)
              (if !selected.isEmpty then some selected else none)) }
    else if b.strict then .error (invalidOptionsMsg others entry_id)
    else .ok { b with answers := dictInsert b.answers entry_id (.list selected) }
  else .ok { b with answers := dictInsert b.answers entry_id (.list selected) }

/-- Python `repr` of a list of strings (`str(value)` when a list lands on
the plain-string branch); string escaping is not modelled, the branch being
unreachable from the stored-answer invariants. -/
def pyReprStrList (l : List String) : String :=
  let sq := (Char.ofNat 39).toString
  "[" ++ String.intercalate ", " (l.map (fun s => sq ++ s ++ sq)) ++ "]"

/-- `FormAnswerBuilder.set_answer(entry_id, value)`: raising `ValueError` is
modelled by `Except.error`; a returned builder is the post-call state. -/
def set_answer (b : Builder) (entry_id : String) (value : InValue) : Except String Builder :=
  match dictGet? b.q_by_id entry_id with
  | none => if b.strict then .error (unknownFieldMsg entry_id) else .ok b
  | some q =>
    let qtype := lowerStr q.qtype
    let choices := q.choices_or_rows.getD []
    let other_allowed := q.other_allowed
    match value with
    | .other t sel => .ok { b with answers := dictInsert b.answers entry_id (.other t sel) }
    | .str s =>
      if qtype = "multiple_choice" ∨ qtype = "dropdown" ∨ qtype = "choice" then
        if choices.contains s then
          .ok { b with answers := dictInsert b.answers entry_id (.str s) }
        else if other_allowed then
          .ok { b with answers := dictInsert b.answers entry_id (.other s none) }
        else if b.strict then .error (invalidOptionMsg s entry_id)
        else .ok b
      else if qtype = "checkboxes" then
        checkboxStore b entry_id [s] choices other_allowed
      else .ok { b with answers := dictInsert b.answers entry_id (.str s) }
    | .list l =>
      if qtype = "multiple_choice" ∨ qtype = "dropdown" ∨ qtype = "choice" then
        if b.strict then .error (invalidOptionMsg (pyReprStrList l) entry_id)
        else .ok b
      else if qtype = "checkboxes" then
        checkboxStore b entry_id l choices other_allowed
      else .ok { b with answers := dictInsert b.answers entry_id (.str (pyReprStrList l)) }

/-- The question an answer is built against when its id is missing from
`q_by_id` (`self.q_by_id.get(eid) or {}`) — every `dict.get` then yields its
default. -/
def emptyQuestion : Question :=
  { text := "", qtype := "", required := none, choices_or_rows := none,
    columns := none, entry_id := none, other_allowed := false,
    other_value := none, other_response_key := none }

/-- The companion wire key for the free-text payload:
`q.get("other_response_key") or f"{key}.other_option_response"`. -/
def otherKeyFor (q : Question) (key : String) : String :=
  match q.other_response_key with
  | some s => if s ≠ "" then s else key ++ ".other_option_response"
  | none => key ++ ".other_option_response"

/-- `FormAnswerBuilder.build_pairs()`: the anti-forgery token pair first when
present, then, per stored answer in insertion order, the "other" record as
sentinel + free text + co-selections, a checkbox list item-by-item, or a
single plain pair. -/
def build_pairs (b : Builder) : String × List (String × String) :=
  let init := if b.fbzx ≠ "" then [("fbzx", b.fbzx)] else []
  let pairs := b.answers.foldl (fun pairs ev =>
    let q := (dictGet? b.q_by_id ev.1).getD emptyQuestion
    let key := "entry." ++ ev.1
    let other_key := otherKeyFor q key
    let other_value_flag := q.other_value.getD "__other_option__"
    let qtype := lowerStr q.qtype
    match ev.2 with
    | .other t sel =>
      pairs ++ [(key, other_value_flag), (other_key, t)] ++ (sel.getD []).map (fun s => (key, s))
    | .list items =>
      if qtype = "checkboxes" then pairs ++ items.map (fun i => (key, i))
      else pairs ++ [(key, pyReprStrList items)]
    | .str s => pairs ++ [(key, s)]) init
  (b.action, pairs)

/-- Claim C4: for a `multiple_choice` or `dropdown` question whose declared
options do not contain `v` and which does not allow "other", `set_answer`
raises `InvalidOption` in strict mode and returns without error in lenient
mode, and in both modes the stored answer mapping is exactly what it was
before the call (the whole builder state is untouched). -/
theorem set_answer_invalid_rejected (b : Builder) (id v : String) (q : Question)
    (hq : dictGet? b.q_by_id id = some q)
    (htype : lowerStr q.qtype = "multiple_choice" ∨ lowerStr q.qtype = "dropdown")
    (hv : v ∉ q.choices_or_rows.getD [])
    (hoa : q.other_allowed = false) :
    set_answer b id (.str v) =
      (if b.strict then .error (invalidOptionMsg v id) else .ok b) := by
  unfold set_answer
  rw [hq]
  simp only []
  have hchoice : lowerStr q.qtype = "multiple_choice" ∨ lowerStr q.qtype = "dropdown" ∨
      lowerStr q.qtype = "choice" := by
    rcases htype with h | h
    · exact Or.inl h
    · exact Or.inr (Or.inl h)
  rw [if_pos hchoice, if_neg (by simp [hv]), if_neg (by simp [hoa])]

/-- A concrete one-question parsed form used by witnesses: a two-option
multiple-choice question without a free-answer escape. -/
def yesNoQuestion : Question :=
  { text := "T", qtype := "multiple_choice", required := none,
    choices_or_rows := some ["Yes", "No"], columns := none, entry_id := some "555",
    other_allowed := false, other_value := none, other_response_key := none }

/-- Witness for C4: a strict builder over one two-option question rejects an
undeclared value with an error, and the same builder in lenient mode returns
unchanged. -/
theorem set_answer_invalid_rejected_witness :
    set_answer (mkBuilder ⟨[yesNoQuestion], "act", ""⟩ true) "555" (.str "Maybe") =
      .error (invalidOptionMsg "Maybe" "555") ∧
    set_answer (mkBuilder ⟨[yesNoQuestion], "act", ""⟩ false) "555" (.str "Maybe") =
      .ok (mkBuilder ⟨[yesNoQuestion], "act", ""⟩ false) :=
  ⟨(set_answer_invalid_rejected (mkBuilder ⟨[yesNoQuestion], "act", ""⟩ true) "555" "Maybe"
      yesNoQuestion rfl (Or.inl rfl) (by decide) rfl).trans rfl,
   (set_answer_invalid_rejected (mkBuilder ⟨[yesNoQuestion], "act", ""⟩ false) "555" "Maybe"
      yesNoQuestion rfl (Or.inl rfl) (by decide) rfl).trans rfl⟩

/-- Claim C2: for a checkboxes question with truthy entry id, options
containing "A" but not "X", "other" allowed with the standard sentinel,
`set_answer(id, ["A","X"])` followed by `build_pairs` yields, for that
question, exactly the sentinel pair, then the free-text pair carrying "X",
then the pair for the co-selected "A" — in that order, after the optional
anti-forgery token pair. -/
theorem builder_checkbox_other_roundtrip (q : Question) (id action fbzx : String)
    (strict : Bool)
    (hid : id ≠ "")
    (heid : q.entry_id = some id)
    (htype : lowerStr q.qtype = "checkboxes")
    (hA : "A" ∈ q.choices_or_rows.getD [])
    (hX : "X" ∉ q.choices_or_rows.getD [])
    (hoa : q.other_allowed = true)
    (hov : q.other_value = some "__other_option__" ∨ q.other_value = none) :
    (set_answer (mkBuilder ⟨[q], action, fbzx⟩ strict) id (.list ["A", "X"])).map
        (fun b2 => (build_pairs b2).2) =
      .ok ((if fbzx ≠ "" then [("fbzx", fbzx)] else []) ++
        [("entry." ++ id, "__other_option__"),
         (otherKeyFor q ("entry." ++ id), "X"),
         ("entry." ++ id, "A")]) := by
  have hqid : (mkBuilder ⟨[q], action, fbzx⟩ strict).q_by_id = [(id, q)] := by
    unfold mkBuilder
    simp [heid, hid, dictInsert]
  have hget : dictGet? [(id, q)] id = some q := by
    simp [dictGet?, List.find?]
  have hnotchoice : ¬(lowerStr q.qtype = "multiple_choice" ∨ lowerStr q.qtype = "dropdown" ∨
      lowerStr q.qtype = "choice") := by
    rw [htype]; decide
  have hsel : List.filter (fun v => (q.choices_or_rows.getD []).contains v) ["A", "X"] =
      ["A"] := by
    simp [List.filter_cons, hA, hX]
  have hoth : List.filter (fun v => !(q.choices_or_rows.getD []).contains v) ["A", "X"] =
      ["X"] := by
    simp [List.filter_cons, hA, hX]
  have hset : set_answer (mkBuilder ⟨[q], action, fbzx⟩ strict) id (.list ["A", "X"]) =
      .ok { strict := strict, action := action, fbzx := fbzx,
            q_by_id := [(id, q)], answers := [(id, AnsValue.other "X" (some ["A"]))] } := by
    unfold set_answer
    rw [hqid, hget]
    simp only []
    rw [if_neg hnotchoice, if_pos htype]
    unfold checkboxStore
    rw [hsel, hoth]
    simp only [hoa]
    simp [mkBuilder, dictInsert, heid, hid,
      show String.intercalate "; " ["X"] = "X" from rfl]
  rw [hset]
  simp only [Except.map]
  unfold build_pairs
  simp only [List.foldl_cons, List.foldl_nil, hget]
  have hflag : q.other_value.getD "__other_option__" = "__other_option__" := by
    rcases hov with h | h <;> rw [h] <;> rfl
  simp [hflag, otherKeyFor]

/-- A concrete one-question parsed form used by witnesses: a checkboxes
question allowing a free answer. -/
def checkboxQuestion : Question :=
  { text := "T", qtype := "checkboxes", required := none,
    choices_or_rows := some ["A", "B"], columns := none, entry_id := some "e1",
    other_allowed := true, other_value := some "__other_option__",
    other_response_key := some "entry.e1.other_option_response" }

/-- Witness for C2: a concrete one-question form gives exactly the three
pairs. -/
theorem builder_checkbox_other_roundtrip_witness :
    (set_answer (mkBuilder ⟨[checkboxQuestion], "act", ""⟩ true) "e1"
        (.list ["A", "X"])).map (fun b2 => (build_pairs b2).2) =
      .ok [("entry.e1", "__other_option__"), ("entry.e1.other_option_response", "X"),
           ("entry.e1", "A")] :=
  (builder_checkbox_other_roundtrip checkboxQuestion "e1" "act" "" true (by decide) rfl
    (by decide) (by decide) (by decide) rfl (Or.inl rfl)).trans rfl

/-! Auxiliary lemmas. -/

/-- A path starting at `null` digs to `null`. -/
theorem dig_null (ps : List Int) : dig DocNode.null ps = DocNode.null := by
  cases ps <;> rfl

/-- Digging a concatenated path is digging the second leg from the first
leg's result. -/
theorem dig_append (pre rest : List Int) (node : DocNode) :
    dig node (pre ++ rest) = dig (dig node pre) rest := by
  induction pre generalizing node with
  | nil => cases node <;> rfl
  | cons p ps ih =>
    cases node with
    | list xs =>
      by_cases h : 0 ≤ p ∧ p.toNat < xs.length
      · simp only [List.cons_append, dig, dif_pos h]
        exact ih _
      · simp only [List.cons_append, dig, dif_neg h, dig_null]
    | str s => simp only [List.cons_append, dig, dig_null]
    | num n => simp only [List.cons_append, dig, dig_null]
    | bool b => simp only [List.cons_append, dig, dig_null]
    | null => simp only [List.cons_append, dig, dig_null]

/-- Claim C8: `_dig` walks the indices in order and returns absent (`None`,
modelled as `null`) the moment any step indexes a non-list node, uses a
negative index, or indexes past the end — for any document and any path, with
no exception involved (the function is total). -/
theorem dig_absent_on_failure (node : DocNode) (pre : List Int) (p : Int) (post : List Int)
    (h : ∀ xs, dig node pre = DocNode.list xs → ¬(0 ≤ p ∧ p.toNat < xs.length)) :
    dig node (pre ++ p :: post) = DocNode.null := by
  rw [dig_append]
  cases hcur : dig node pre with
  | list xs => simp only [dig, dif_neg (h xs hcur)]
  | str s => rfl
  | num n => rfl
  | bool b => rfl
  | null => rfl

/-- Witness for C8: digging `[5, 0]` in the one-element list `["a"]` fails at
the first step (5 is past the end) and yields absent. -/
theorem dig_absent_on_failure_witness :
    (∀ xs, dig (DocNode.list [DocNode.str "a"]) [] = DocNode.list xs →
      ¬(0 ≤ (5 : Int) ∧ (5 : Int).toNat < xs.length)) ∧
    dig (DocNode.list [DocNode.str "a"]) ([] ++ (5 : Int) :: [0]) = DocNode.null := by
  refine ⟨?_, ?_⟩
  · intro xs hx
    injection hx with hx2
    subst hx2
    decide
  · exact dig_absent_on_failure _ [] 5 [0] (by
      intro xs hx
      injection hx with hx2
      subst hx2
      decide)

/-- Claim C6: the containment fallback of `pick_single_option` returns the
sole candidate option — an option whose normalized form contains the
(possibly prefix-stripped) text or is contained in it — when there is exactly
one, and none when there are zero or two or more. -/
theorem containment_unique_hit (a : String) (opts : List String) (hne : opts ≠ []) :
    (∀ o, containmentHits a opts = [o] → containmentStep a opts = some o) ∧
    ((containmentHits a opts).length ≠ 1 → containmentStep a opts = none) := by
  refine ⟨?_, ?_⟩
  · intro o h
    unfold containmentStep
    rw [h]
  · intro h
    unfold containmentStep
    cases hh : containmentHits a opts with
    | nil => rfl
    | cons x t =>
      cases t with
      | nil => exact absurd (by rw [hh]; rfl) h
      | cons y tt => rfl

/-- Witness for C6: a unique containment candidate wins; an ambiguous pair
yields none. -/
theorem containment_unique_hit_witness :
    containmentStep "b" ["B", "C"] = some "B" ∧ containmentStep "a" ["AB", "AC"] = none := by
  refine ⟨?_, ?_⟩
  · exact (containment_unique_hit "b" ["B", "C"] (by decide)).1 "B" (by decide)
  · exact (containment_unique_hit "a" ["AB", "AC"] (by decide)).2 (by decide)

/-- Dropping while a predicate holds everywhere leaves nothing. -/
theorem dropWhile_eq_nil_of_all {p : Char → Bool} {l : List Char} (h : l.all p = true) :
    l.dropWhile p = [] := by
  induction l with
  | nil => rfl
  | cons c t ih =>
    simp only [List.all_cons, Bool.and_eq_true] at h
    simp [List.dropWhile, h.1, ih h.2]

/-- A whitespace-only text normalizes to the empty string. -/
theorem pynorm_blank (text : String) (h : text.toList.all isPySpace = true) :
    pynorm text = "" := by
  unfold pynorm pynormL dropAround
  rw [dropWhile_eq_nil_of_all h]
  rfl

/-- The empty string is a substring of everything (Python `"" in s`). -/
theorem isSubL_nil (l : List Char) : isSubL [] l = true := by
  cases l <;> simp [isSubL, List.isPrefixOf]

/-- Claim C10: with a single option of non-empty normalized form, an empty or
whitespace-only text resolves to that option — the normalized text is the
empty string, which is contained in the option, so the containment fallback
has exactly one candidate. -/
theorem pick_single_blank_singleton (text o : String)
    (hws : text.toList.all isPySpace = true) (ho : pynorm o ≠ "") :
    pick_single_option text [o] = some o := by
  have hnorm : pynorm text = "" := pynorm_blank text hws
  unfold pick_single_option
  rw [hnorm]
  have hbeq : (pynorm o == "") = false := beq_eq_false_iff_ne.mpr ho
  have hfind : List.find? (fun o2 => pynorm o2 == "") [o] = none := by
    simp [List.find?, hbeq]
  simp only [List.isEmpty, if_false, Bool.false_eq_true]
  rw [if_neg (by simp [pyIsDigit])]
  unfold pickSingleRest
  rw [hfind]
  have hsep : sepSplit ("" : String).toList = none := rfl
  rw [hsep]
  unfold containmentStep containmentHits
  simp [isSubL_nil]

/-- Witness for C10: a space resolves to the sole option "A". -/
theorem pick_single_blank_singleton_witness :
    (" ".toList.all isPySpace = true) ∧ pick_single_option " " ["A"] = some "A" :=
  ⟨by decide, pick_single_blank_singleton " " "A" (by decide) (by decide)⟩

/-- Claim C1: when the normalized text is all digits with value `k` and
`1 ≤ k ≤ length(options)`, `pick_single_option` returns the `k`-th option
(1-based). -/
theorem pick_single_ordinal (text : String) (opts : List String) (k : Nat)
    (hopts : opts ≠ [])
    (hdig : pyIsDigit (pynorm text).toList = true)
    (hval : digitsToNat (pynorm text).toList = k)
    (h1 : 1 ≤ k) (h2 : k ≤ opts.length) :
    pick_single_option text opts = opts[k - 1]? := by
  have hne : opts.isEmpty = false := by
    cases opts with
    | nil => exact absurd rfl hopts
    | cons x t => rfl
  unfold pick_single_option
  rw [hne]
  simp only [Bool.false_eq_true, if_false]
  rw [if_pos ⟨hdig, hval ▸ h1, hval ▸ h2⟩, hval]

/-- Witness for C1: the spec's example `resolveSingle("2", ["A","B","C"]) = "B"`. -/
theorem pick_single_ordinal_witness :
    pick_single_option "2" ["A", "B", "C"] = some "B" :=
  (pick_single_ordinal "2" ["A", "B", "C"] 2 (by decide) (by decide) (by decide)
    (by decide) (by decide)).trans (by decide)

/-- Following claim C5's words rather than the source (for comparison only):
the claim's separator set is colon, hyphen-minus, and EM DASH U+2014. -/
def isSepClaim (c : Char) : Bool := c = ':' || c = '-' || c = '—'

/-- Following claim C5's words rather than the source: strip the prefix by
splitting at the LAST claimed separator. -/
def lastSepSplit (s : List Char) : Option (List Char) :=
  if s.any isSepClaim then some ((s.reverse.takeWhile (fun c => !isSepClaim c)).reverse)
  else none

/-- Following claim C5's words rather than the source: `resolveSingle` with
the prefix-strip step replaced by the last-separator split over the claimed
separator set. -/
def pick_single_option_claimC5 (answer_text : String) (options : List String) : Option String :=
  if options.isEmpty then none
  else
    let ans := pynorm answer_text
    let k := digitsToNat ans.toList
    if pyIsDigit ans.toList = true ∧ 1 ≤ k ∧ k ≤ options.length then
      options[k - 1]?
    else
      match options.find? (fun o => pynorm o == ans) with
      | some o => some o
      | none =>
        match lastSepSplit ans.toList with
        | some rest =>
          let ans2 := strippedRemainder rest
          match options.find? (fun o => pynorm o == ans2) with
          | some o => some o
          | none => containmentStep ans2 options
        | none => containmentStep ans options

/-- Counterexample to claim C5.  The source splits at the FIRST separator of
the class `[:\-–]` (colon, hyphen-minus, EN DASH U+2013), not the last: for
"label: C - B" the remainder is "c - b", which matches nothing exactly and
then hits both options in the containment step, so the code returns none
while the claim's last-separator split would return "B".  Likewise the EM
DASH of the claim's separator list is not in the class at all: "label—C—B"
is never prefix-stripped and returns none, while the claim predicts "B". -/
theorem pick_single_prefix_cex :
    (pick_single_option "label: C - B" ["B", "C"] = none ∧
      pick_single_option_claimC5 "label: C - B" ["B", "C"] = some "B") ∧
    (pick_single_option "label—C—B" ["B", "C"] = none ∧
      pick_single_option_claimC5 "label—C—B" ["B", "C"] = some "B") := by
  refine ⟨⟨?_, ?_⟩, ⟨?_, ?_⟩⟩ <;> decide

/-- Claim C5 as amended: when the ordinal and exact steps fail and the
normalized text contains one of the separators ':', '-', '–' (EN DASH U+2013)
followed by at least one character, `pick_single_option` splits at the FIRST
such separator, strips whitespace and surrounding quote characters from the
remainder, retries exact normalized match against it, returns the matched
option if any, and otherwise continues to the containment step with the
stripped remainder. -/
theorem pick_single_prefix_first_sep (text : String) (opts : List String) (rest : List Char)
    (hne : opts ≠ [])
    (hdig : ¬(pyIsDigit (pynorm text).toList = true ∧
      1 ≤ digitsToNat (pynorm text).toList ∧ digitsToNat (pynorm text).toList ≤ opts.length))
    (hex : opts.find? (fun o => pynorm o == pynorm text) = none)
    (hsep : sepSplit (pynorm text).toList = some rest) :
    (∀ o, opts.find? (fun o2 => pynorm o2 == strippedRemainder rest) = some o →
      pick_single_option text opts = some o) ∧
    (opts.find? (fun o2 => pynorm o2 == strippedRemainder rest) = none →
      pick_single_option text opts = containmentStep (strippedRemainder rest) opts) := by
  have hne2 : opts.isEmpty = false := by
    cases opts with
    | nil => exact absurd rfl hne
    | cons x t => rfl
  have key : pick_single_option text opts = pickSingleRest (pynorm text) opts := by
    unfold pick_single_option
    rw [hne2]
    simp only [Bool.false_eq_true, if_false]
    rw [if_neg hdig]
  refine ⟨?_, ?_⟩
  · intro o h
    rw [key]
    unfold pickSingleRest
    rw [hex, hsep]
    simp only [h]
  · intro h
    rw [key]
    unfold pickSingleRest
    rw [hex, hsep]
    simp only [h]

/-- Witness for the amended C5: the spec's example
`resolveSingle("prefix: B", ["A","B","C"]) = "B"` goes through the
prefix-strip-then-exact-match path. -/
theorem pick_single_prefix_first_sep_witness :
    pick_single_option "prefix: B" ["A", "B", "C"] = some "B" :=
  (pick_single_prefix_first_sep "prefix: B" ["A", "B", "C"] " b".toList
    (by decide) (by decide) (by decide) (by decide)).1 "B" (by decide)

/-- First-seen-order de-duplicating append. -/
def dedupAppend (acc : List String) (l : List String) : List String :=
  l.foldl (fun a m => if m ∈ a then a else a ++ [m]) acc

/-- The accumulation loop of `pick_multi_options` equals de-duplicating the
resolved, non-empty results in order. -/
theorem multiFold_eq (opts : List String) (parts : List String) :
    ∀ acc, parts.foldl (multiStep opts) acc =
      dedupAppend acc ((parts.filterMap (fun p => pick_single_option p opts)).filter
        (fun m => m ≠ "")) := by
  induction parts with
  | nil => intro acc; rfl
  | cons p t ih =>
    intro acc
    simp only [List.foldl_cons, List.filterMap_cons]
    cases hm : pick_single_option p opts with
    | none =>
      have hstep : multiStep opts acc p = acc := by unfold multiStep; rw [hm]
      rw [hstep]
      exact ih acc
    | some m =>
      by_cases hme : m = ""
      · subst hme
        have hstep : multiStep opts acc p = acc := by
          unfold multiStep
          rw [hm]
          simp
        rw [hstep]
        simp only [List.filter_cons]
        rw [if_neg (by simp)]
        exact ih acc
      · have hfilter :
            (m :: (t.filterMap (fun p2 => pick_single_option p2 opts))).filter
              (fun m2 => m2 ≠ "") =
            m :: ((t.filterMap (fun p2 => pick_single_option p2 opts)).filter
              (fun m2 => m2 ≠ "")) := by
          simp only [List.filter_cons]
          rw [if_pos (by simpa using hme)]
        rw [hfilter]
        by_cases hmem : m ∈ acc
        · have hstep : multiStep opts acc p = acc := by
            unfold multiStep
            simp only [hm]
            rw [if_neg (by simp [hmem])]
          rw [hstep]
          have hded : dedupAppend acc (m :: ((t.filterMap
              (fun p2 => pick_single_option p2 opts)).filter (fun m2 => m2 ≠ ""))) =
              dedupAppend acc ((t.filterMap (fun p2 => pick_single_option p2 opts)).filter
                (fun m2 => m2 ≠ "")) := by
            unfold dedupAppend
            simp only [List.foldl_cons]
            rw [if_pos hmem]
          rw [hded]
          exact ih acc
        · have hstep : multiStep opts acc p = acc ++ [m] := by
            unfold multiStep
            simp only [hm]
            rw [if_pos ⟨hme, hmem⟩]
          rw [hstep]
          have hded : dedupAppend acc (m :: ((t.filterMap
              (fun p2 => pick_single_option p2 opts)).filter (fun m2 => m2 ≠ ""))) =
              dedupAppend (acc ++ [m]) ((t.filterMap (fun p2 => pick_single_option p2 opts)).filter
                (fun m2 => m2 ≠ "")) := by
            unfold dedupAppend
            simp only [List.foldl_cons]
            rw [if_neg hmem]
          rw [hded]
          exact ih (acc ++ [m])

/-- Claim C7 as amended: for a text that is not a JSON array, the split
branch of `pick_multi_options` splits on commas, semicolons, slashes and
newlines, trims pieces and drops blanks, resolves each piece via
`pick_single_option`, drops pieces that are unmatched OR whose resolved
option is the empty string (a falsy match), de-duplicates by resolved value
in first-seen order, and yields the list, or none when it is empty. -/
theorem pick_multi_split_pipeline (J : String → Option (List String)) (text : String)
    (opts : List String) (hne : opts ≠ []) (hjson : J (pyStrip text) = none) :
    pick_multi_options J text opts =
      (let parts := ((splitDelims (pyStrip text).toList).map
          (fun p => (dropAround isPySpace p).asString)).filter (fun p => p ≠ "")
       let resolved := (parts.filterMap (fun p => pick_single_option p opts)).filter
          (fun m => m ≠ "")
       let dedup := dedupAppend [] resolved
       if dedup.isEmpty then none else some dedup) := by
  have hne2 : opts.isEmpty = false := by
    cases opts with
    | nil => exact absurd rfl hne
    | cons x t => rfl
  unfold pick_multi_options
  rw [hne2]
  simp only [Bool.false_eq_true, if_false]
  rw [hjson]
  simp only []
  set parts := ((splitDelims (pyStrip text).toList).map
      (fun p => (dropAround isPySpace p).asString)).filter (fun p => p ≠ "") with hparts
  by_cases hp : parts.isEmpty
  · rw [if_pos hp]
    have : parts = [] := by
      cases hpp : parts
      · rfl
      · rw [hpp] at hp; exact absurd hp (by simp)
    rw [this]
    rfl
  · rw [if_neg hp]
    rw [multiFold_eq]

/-- Witness for the amended C7: the spec's example with a repeated value,
`resolveMultiple("A; C; a", ["A","B","C"]) = ["A","C"]` — order kept, no
duplicate. -/
theorem pick_multi_split_pipeline_witness :
    jsonNone (pyStrip "A; C; a") = none ∧
    pick_multi_options jsonNone "A; C; a" ["A", "B", "C"] = some ["A", "C"] :=
  ⟨rfl, (pick_multi_split_pipeline jsonNone "A; C; a" ["A", "B", "C"]
    (by decide) rfl).trans (by decide)⟩

/-- Following claim C7's words rather than the source (for comparison only):
every piece that `resolveSingle` matches is kept — including a piece resolved
to the empty-string option. -/
def resolveMultipleClaim (answer_text : String) (options : List String) :
    Option (List String) :=
  if options.isEmpty then none
  else
    let parts := ((splitDelims (pyStrip answer_text).toList).map
      (fun p => (dropAround isPySpace p).asString)).filter (fun p => p ≠ "")
    let resolved := parts.filterMap (fun p => pick_single_option p options)
    let dedup := dedupAppend [] resolved
    if dedup.isEmpty then none else some dedup

/-- Counterexample to claim C7: with the single declared option "" (the empty
string), the piece "x" resolves to "" via the containment fallback — a
matched piece, not an unmatched one — yet the source drops it because the
match is falsy, and returns none, while the claim's description keeps every
matched piece and returns [""]. -/
theorem pick_multi_empty_option_cex :
    pick_single_option "x" [""] = some "" ∧
    pick_multi_options jsonNone "x" [""] = none ∧
    resolveMultipleClaim "x" [""] = some [""] := by
  refine ⟨?_, ?_, ?_⟩ <;> decide


